import Mathlib

/-!
Verification of the TTS job-service HTTP routes (`src/backend/routes.py`)
against its natural-language specification.

The embedding models the server state visible to the route handlers:
the artifact store (the audio directory, a finite map from job_id to the
persisted bytes), the Job Manager's in-memory job table, and the process
clock.  Route handlers are pure functions from this state (plus request
data) to a response and a possibly-updated state.

Parts of the repository imported by `routes.py` but absent from the
source tree (`job_management`, `storage`) are modelled from the spec;
each such definition carries a doc comment starting `Modelled from the
spec:`.
-/

namespace TTS

/-- Job status enum. Modelled from the spec: the `JobStatus` enum of the
`job_management` module (absent from the source tree) with members
QUEUED, PROCESSING, COMPLETED, FAILED; `value` gives the wire string, the
string `"completed"` being the one `routes.py` itself uses literally. -/
inductive JobStatus where
  | queued
  | processing
  | completed
  | failed
deriving DecidableEq, Repr

/-- Wire string of a status (`status.value` in the Python code). -/
def JobStatus.value : JobStatus → String
  | .queued => "queued"
  | .processing => "processing"
  | .completed => "completed"
  | .failed => "failed"

/-- A validated TTS request as constructed in `tts_endpoint`
(`TTSRequest(text=..., voice=..., pitch=..., speed=..., volume=...)`). -/
structure TTSRequest where
  text : String
  voice : String
  pitch : Int
  speed : Int
  volume : Int
deriving DecidableEq, Repr

/-- One in-memory job record. Modelled from the spec: the Job Record of
the `job_management` module: request parameters, current status and
creation timestamp. -/
structure JobInfo where
  request : TTSRequest
  status : JobStatus
  created_at : Nat
deriving DecidableEq, Repr

/-- The Job Manager state seen by the routes: the in-memory job table
(`job_manager.jobs`), the worker-pool bound (`job_manager.max_concurrent`)
and a counter used to mint fresh job identifiers. -/
structure JobManager where
  jobs : List (String × JobInfo)
  max_concurrent : Nat
  nextId : Nat
deriving DecidableEq, Repr

/-- One persisted artifact: the bytes of `{job_id}.mp3` plus the creation
timestamp that the listing metadata exposes. -/
structure Artifact where
  data : List Nat
  created_at : Nat
deriving DecidableEq, Repr

/-- Server state visible to the route handlers. `hashFn` is CPython's
built-in `hash` on strings: a function fixed for the lifetime of one
process (its per-process seed comes from PYTHONHASHSEED), modelled as an
arbitrary function in the state. -/
structure ServerState where
  store : List (String × Artifact)
  jm : JobManager
  now : Nat
  hashFn : String → Int

/-- `os.path.exists(os.path.join(AUDIO_DIR, f"{job_id}.mp3"))`: the
artifact store holds an entry for this job_id. -/
def artifact_exists (store : List (String × Artifact)) (jid : String) : Bool :=
  (List.lookup jid store).isSome

/-- Modelled from the spec: `JobManager.get_queue_size` (module
`job_management`, absent from the source tree) returns the count of jobs
not yet COMPLETED/FAILED, i.e. QUEUED + PROCESSING. -/
def get_queue_size (jm : JobManager) : Nat :=
  (jm.jobs.filter (fun e =>
    e.2.status = JobStatus.queued ∨ e.2.status = JobStatus.processing)).length

/-- Modelled from the spec: the fresh unique identifier minted by
`JobManager.add_job`, here drawn from a counter. -/
def fresh_job_id (jm : JobManager) : String :=
  "job-" ++ toString jm.nextId

/-- Modelled from the spec: `JobManager.add_job` constructs a Job Record
with status QUEUED and a fresh unique identifier, appends it to the
queue, records the creation time, and returns the identifier. -/
def add_job (jm : JobManager) (now : Nat) (req : TTSRequest) :
    String × JobManager :=
  let jid := fresh_job_id jm
  (jid, { jm with
            jobs := jm.jobs ++ [(jid, { request := req, status := JobStatus.queued, created_at := now })],
            nextId := jm.nextId + 1 })

/-- Modelled from the spec: `JobManager.get_job_status` returns the
current status of an in-memory job, or None when the identifier is
unknown to memory. -/
def jm_get_job_status (jm : JobManager) (jid : String) : Option JobStatus :=
  (List.lookup jid jm.jobs).map (fun info => info.status)

/-- Python's `str.strip()`: remove leading and trailing whitespace. -/
def strip (s : String) : String :=
  ⟨((s.data.dropWhile Char.isWhitespace).reverse.dropWhile Char.isWhitespace).reverse⟩

/-- Outcome of `POST /tts` (`tts_endpoint`). -/
inductive SubmitResult where
  | validationError
  | capacityExceeded (queue_size : Nat)
  | accepted (job_id : String)
deriving DecidableEq, Repr

/-- `tts_endpoint` of `routes.py`. The request text is `Option String` so
that Python's `not request.text` covers both a missing and an empty text.
Validation (`not request.text or request.text.strip() == ""`) comes
first, then the capacity check
(`job_manager.get_queue_size() > job_manager.max_concurrent * 2`), then
`add_job` on the stripped text. -/
def tts_endpoint (st : ServerState) (text : Option String)
    (voice : String) (pitch speed volume : Int) : SubmitResult × ServerState :=
  match text with
  | none => (SubmitResult.validationError, st)
  | some t =>
    if t = "" ∨ strip t = "" then
      (SubmitResult.validationError, st)
    else if get_queue_size st.jm > st.jm.max_concurrent * 2 then
      (SubmitResult.capacityExceeded (get_queue_size st.jm), st)
    else
      let r := add_job st.jm st.now
        { text := strip t, voice := voice, pitch := pitch, speed := speed, volume := volume }
      (SubmitResult.accepted r.1, { st with jm := r.2 })

/-- Outcome of `GET /tts/status/{job_id}`. -/
inductive StatusResult where
  | ok (job_id status message : String)
  | notFound
deriving DecidableEq, Repr

/-- `get_job_status` of `routes.py`: the artifact store is checked first
(an existing file answers "completed"), then the in-memory record, then
404. -/
def get_job_status (st : ServerState) (jid : String) : StatusResult :=
  if artifact_exists st.store jid then
    StatusResult.ok jid "completed" "Audio is ready"
  else
    match jm_get_job_status st.jm jid with
    | none => StatusResult.notFound
    | some s =>
      StatusResult.ok jid s.value
        (if s = JobStatus.processing then "Audio is being processed" else "Audio is ready")

/-- Outcome of `GET /tts/audio/{job_id}`. -/
inductive AudioResult where
  | notFound
  | incomplete
  | ok (data : List Nat) (cacheControl : String) (etagHeader : String)
deriving DecidableEq, Repr

/-- The ETag header value `f'"{hash(job_id)}"'`. -/
def etag (st : ServerState) (jid : String) : String :=
  "\"" ++ toString (st.hashFn jid) ++ "\""

/-- `get_audio` of `routes.py`: 404 when the file is absent; 422 when
`not audio_data or len(audio_data) < 100`; otherwise the bytes with
`Cache-Control: public, max-age=86400` and the ETag. -/
def get_audio (st : ServerState) (jid : String) : AudioResult :=
  match List.lookup jid st.store with
  | none => AudioResult.notFound
  | some a =>
    if a.data.isEmpty ∨ a.data.length < 100 then
      AudioResult.incomplete
    else
      AudioResult.ok a.data "public, max-age=86400" (etag st jid)

/-- A task handed to FastAPI's `BackgroundTasks` (run after the response
is sent, outside the handler's critical path). -/
inductive BgTask where
  | cleanup_job (job_id : String)
deriving DecidableEq, Repr

/-- Outcome of `DELETE /tts/audio/{job_id}`. -/
inductive DeleteResult where
  | notFound
  | ok (message : String)
deriving DecidableEq, Repr

/-- `delete_audio` of `routes.py`: 404 when the file is absent; otherwise
the file is removed and, when `job_id in job_manager.jobs`, a
`cleanup_job` background task is scheduled. The handler returns the
response, the new state, and the scheduled background tasks. -/
def delete_audio (st : ServerState) (jid : String) :
    DeleteResult × ServerState × List BgTask :=
  if artifact_exists st.store jid then
    let store' := st.store.filter (fun e => !(e.1 == jid))
    let tasks :=
      if (List.lookup jid st.jm.jobs).isSome then [BgTask.cleanup_job jid] else []
    (DeleteResult.ok ("Audio for job " ++ jid ++ " deleted successfully"),
     { st with store := store' }, tasks)
  else
    (DeleteResult.notFound, st, [])

/-- One entry of the `GET /tts/jobs` listing. `created_at` is the
creation timestamp; the Python code sorts on its `isoformat()` string,
and `isoformat` is strictly monotone in the timestamp, so the numeric
timestamp is the sort key here. -/
structure JobSummary where
  job_id : String
  status : String
  created_at : Nat
  audio_exists : Bool
  text : String
deriving DecidableEq, Repr

/-- Modelled from the spec: `load_jobs` (module `storage`, absent from
the source tree) scans the Artifact Store and derives one completed-job
summary per persisted artifact; no in-memory text is available from the
scan. -/
def load_jobs (store : List (String × Artifact)) : List JobSummary :=
  store.map (fun e =>
    { job_id := e.1, status := "completed", created_at := e.2.created_at,
      audio_exists := true, text := "" })

/-- The 100-character preview of a job's text in the listing
(`text[:100] + "..." if len(text) > 100 else text`). -/
def preview (t : String) : String :=
  if t.length > 100 then t.take 100 ++ "..." else t

/-- The active-job portion of `get_all_jobs`: every in-memory job whose
job_id does not already have an artifact file. -/
def active_jobs (st : ServerState) : List JobSummary :=
  st.jm.jobs.filterMap (fun e =>
    if artifact_exists st.store e.1 then none
    else some { job_id := e.1, status := e.2.status.value, created_at := e.2.created_at,
                audio_exists := false, text := preview e.2.request.text })

/-- Stable insertion into a list kept non-increasing in `created_at`;
ties keep their original relative order, like Python's stable
`list.sort(..., reverse=True)`. -/
def insort (x : JobSummary) : List JobSummary → List JobSummary
  | [] => [x]
  | y :: ys => if y.created_at < x.created_at then x :: y :: ys else y :: insort x ys

/-- Stable sort by `created_at` descending
(`all_jobs.sort(key=lambda x: x.get("created_at", ""), reverse=True)`). -/
def sort_desc : List JobSummary → List JobSummary
  | [] => []
  | x :: xs => insort x (sort_desc xs)

/-- `get_all_jobs` of `routes.py`: completed jobs from the store scan,
plus active in-memory jobs without an artifact, sorted newest-first and
truncated to the 50 most recent. -/
def get_all_jobs (st : ServerState) : List JobSummary :=
  (sort_desc (load_jobs st.store ++ active_jobs st)).take 50

/-! ## Helper lemmas -/

theorem mem_insort (x z : JobSummary) (l : List JobSummary) :
    z ∈ insort x l ↔ z = x ∨ z ∈ l := by
  induction l with
  | nil => simp [insort]
  | cons y ys ih =>
    rw [insort]
    split
    · simp
    · simp [ih]
      tauto

theorem insort_pairwise (x : JobSummary) (l : List JobSummary)
    (h : l.Pairwise (fun a b => b.created_at ≤ a.created_at)) :
    (insort x l).Pairwise (fun a b => b.created_at ≤ a.created_at) := by
  induction l with
  | nil => simp [insort]
  | cons y ys ih =>
    rw [insort]
    rcases List.pairwise_cons.mp h with ⟨hy, hys⟩
    split
    next hlt =>
      refine List.pairwise_cons.mpr ⟨?_, h⟩
      intro z hz
      rcases List.mem_cons.mp hz with rfl | hz'
      · exact Nat.le_of_lt hlt
      · exact Nat.le_trans (hy z hz') (Nat.le_of_lt hlt)
    next hge =>
      refine List.pairwise_cons.mpr ⟨?_, ih hys⟩
      intro z hz
      rcases (mem_insort x z ys).mp hz with rfl | hz'
      · exact Nat.le_of_not_lt hge
      · exact hy z hz'

theorem sort_desc_pairwise (l : List JobSummary) :
    (sort_desc l).Pairwise (fun a b => b.created_at ≤ a.created_at) := by
  induction l with
  | nil => simp [sort_desc]
  | cons x xs ih => exact insort_pairwise x (sort_desc xs) ih

theorem lookup_filter_self (jid : String) (l : List (String × Artifact)) :
    List.lookup jid (l.filter (fun e => !(e.1 == jid))) = none := by
  induction l with
  | nil => rfl
  | cons x xs ih =>
    by_cases h : x.1 = jid
    · simp [List.filter, h, ih]
    · simp only [List.filter]
      rw [show (!(x.1 == jid)) = true by simp [h]]
      simp only [List.lookup]
      rw [show (jid == x.1) = false by simp [Ne.symm h]]
      exact ih

theorem lookup_isSome_of_mem_fst (jid : String) (l : List (String × Artifact))
    (h : jid ∈ l.map Prod.fst) : (List.lookup jid l).isSome = true := by
  induction l with
  | nil => simp at h
  | cons x xs ih =>
    rcases List.mem_cons.mp h with hx | hx
    · simp only [List.lookup]
      rw [show (jid == x.1) = true by simp [hx]]
      rfl
    · by_cases hj : jid = x.1
      · simp only [List.lookup]
        rw [show (jid == x.1) = true by simp [hj]]
        rfl
      · simp only [List.lookup]
        rw [show (jid == x.1) = false by simp [hj]]
        exact ih hx

/-! ## Claims -/

/-- C4: for every state of the Artifact Store and in-memory job table,
the job listing returns at most 50 entries, and the returned entries
are sorted by creation time in non-increasing order (newest first). -/
theorem C4_listing_cap_and_order (st : ServerState) :
    (get_all_jobs st).length ≤ 50 ∧
    (get_all_jobs st).Pairwise (fun a b => b.created_at ≤ a.created_at) := by
  constructor
  · rw [get_all_jobs, List.length_take]
    exact Nat.min_le_left _ _
  · exact List.Pairwise.sublist (List.take_sublist _ _) (sort_desc_pairwise _)

/-- C5: for every submission whose text is absent or empty, the submit
endpoint fails with a validation error (HTTP 400), no job record is
created and the queue is unchanged (the whole state is returned as is). -/
theorem C5_empty_text_rejected (st : ServerState) (voice : String)
    (pitch speed volume : Int) :
    tts_endpoint st none voice pitch speed volume = (SubmitResult.validationError, st) ∧
    tts_endpoint st (some "") voice pitch speed volume = (SubmitResult.validationError, st) ∧
    get_queue_size (tts_endpoint st (some "") voice pitch speed volume).2.jm =
      get_queue_size st.jm := by
  refine ⟨rfl, ?_, ?_⟩ <;> simp [tts_endpoint]

/-- An idle server: empty store, empty job table, two workers. -/
def stW : ServerState :=
  { store := [], jm := { jobs := [], max_concurrent := 2, nextId := 0 },
    now := 0, hashFn := fun _ => 0 }

/-- A server whose queue holds five queued jobs against two workers, so
`get_queue_size = 5 > max_concurrent * 2 = 4`. -/
def stWFull : ServerState :=
  { store := [],
    jm := { jobs :=
              [("q0", { request := { text := "a", voice := "v", pitch := 0, speed := 0, volume := 0 }, status := JobStatus.queued, created_at := 0 }),
               ("q1", { request := { text := "a", voice := "v", pitch := 0, speed := 0, volume := 0 }, status := JobStatus.queued, created_at := 1 }),
               ("q2", { request := { text := "a", voice := "v", pitch := 0, speed := 0, volume := 0 }, status := JobStatus.queued, created_at := 2 }),
               ("q3", { request := { text := "a", voice := "v", pitch := 0, speed := 0, volume := 0 }, status := JobStatus.queued, created_at := 3 }),
               ("q4", { request := { text := "a", voice := "v", pitch := 0, speed := 0, volume := 0 }, status := JobStatus.queued, created_at := 4 })],
            max_concurrent := 2, nextId := 5 },
    now := 5, hashFn := fun _ => 0 }

/-- C1 (counterexample): the claim quantifies over every request with
non-empty text, but the text `" "` is non-empty, the idle server is far
under capacity, and the submission is still not admitted — validation
rejects it before the capacity check because it is blank after
stripping. -/
theorem C1_counterexample :
    (" " : String) ≠ "" ∧
    get_queue_size stW.jm ≤ stW.jm.max_concurrent * 2 ∧
    ¬ ∃ jid st', tts_endpoint stW (some " ") "v" 0 0 0 =
        (SubmitResult.accepted jid, st') := by
  refine ⟨by decide, by decide, ?_⟩
  rintro ⟨jid, st', hco⟩
  have h1 : (tts_endpoint stW (some " ") "v" 0 0 0).1 = SubmitResult.validationError := by
    decide
  rw [hco] at h1
  simp at h1

/-- C1 (amended): for every submission request whose text is non-empty
after stripping whitespace, if at submission time `queue_size()` is
strictly greater than `max_concurrent * 2` then submit fails with the
capacity error and the state is unchanged; otherwise the submission is
admitted and a job_id is returned. -/
theorem C1_admission_control (st : ServerState) (t voice : String)
    (pitch speed volume : Int) (h : strip t ≠ "") :
    (get_queue_size st.jm > st.jm.max_concurrent * 2 →
      tts_endpoint st (some t) voice pitch speed volume =
        (SubmitResult.capacityExceeded (get_queue_size st.jm), st)) ∧
    (get_queue_size st.jm ≤ st.jm.max_concurrent * 2 →
      ∃ jid st', tts_endpoint st (some t) voice pitch speed volume =
        (SubmitResult.accepted jid, st')) := by
  have hval : ¬ (t = "" ∨ strip t = "") := by
    rintro (rfl | h2)
    · exact h rfl
    · exact h h2
  constructor
  · intro hq
    simp only [tts_endpoint, if_neg hval, if_pos hq]
  · intro hq
    simp only [tts_endpoint, if_neg hval, if_neg (Nat.not_lt.mpr hq)]
    exact ⟨_, _, rfl⟩

theorem C1_admission_control_witness :
    (∃ jid st', tts_endpoint stW (some "Hello world") "v" 0 0 0 =
        (SubmitResult.accepted jid, st')) ∧
    tts_endpoint stWFull (some "Hello world") "v" 0 0 0 =
      (SubmitResult.capacityExceeded (get_queue_size stWFull.jm), stWFull) :=
  ⟨(C1_admission_control stW "Hello world" "v" 0 0 0 (by decide)).2 (by decide),
   (C1_admission_control stWFull "Hello world" "v" 0 0 0 (by decide)).1 (by decide)⟩

/-- C2: the status lookup checks the Artifact Store first — when an
artifact exists the endpoint reports completed regardless of the
in-memory record; otherwise an in-memory record answers with its current
status; otherwise the lookup fails with not-found (HTTP 404). -/
theorem C2_status_authority (st : ServerState) (jid : String) :
    (artifact_exists st.store jid = true →
      get_job_status st jid = StatusResult.ok jid "completed" "Audio is ready") ∧
    (artifact_exists st.store jid = false →
      ∀ s, jm_get_job_status st.jm jid = some s →
        get_job_status st jid = StatusResult.ok jid s.value
          (if s = JobStatus.processing then "Audio is being processed" else "Audio is ready")) ∧
    (artifact_exists st.store jid = false → jm_get_job_status st.jm jid = none →
      get_job_status st jid = StatusResult.notFound) := by
  refine ⟨fun h => ?_, fun h s hs => ?_, fun h hn => ?_⟩
  · simp [get_job_status, h]
  · simp [get_job_status, h, hs]
  · simp [get_job_status, h, hn]

/-- A server holding a finished artifact for `"j1"` while the in-memory
record for `"j1"` still says PROCESSING. -/
def st2 : ServerState :=
  { store := [("j1", { data := List.replicate 100 0, created_at := 5 })],
    jm := { jobs := [("j1", { request := { text := "hi", voice := "v", pitch := 0, speed := 0, volume := 0 },
                              status := JobStatus.processing, created_at := 3 })],
            max_concurrent := 2, nextId := 1 },
    now := 9, hashFn := fun _ => 0 }

theorem C2_status_authority_witness :
    jm_get_job_status st2.jm "j1" = some JobStatus.processing ∧
    get_job_status st2 "j1" = StatusResult.ok "j1" "completed" "Audio is ready" :=
  ⟨by decide, (C2_status_authority st2 "j1").1 (by decide)⟩

/-- C3: the audio fetch returns not-found when no artifact exists,
incomplete (HTTP 422) when the artifact holds fewer than 100 bytes
(including empty), and otherwise the artifact bytes with the long-lived
cache directive and the validator tag. -/
theorem C3_fetch_audio (st : ServerState) (jid : String) :
    (List.lookup jid st.store = none → get_audio st jid = AudioResult.notFound) ∧
    (∀ a, List.lookup jid st.store = some a → a.data.length < 100 →
      get_audio st jid = AudioResult.incomplete) ∧
    (∀ a, List.lookup jid st.store = some a → 100 ≤ a.data.length →
      get_audio st jid = AudioResult.ok a.data "public, max-age=86400" (etag st jid)) := by
  refine ⟨fun h => ?_, fun a ha hlen => ?_, fun a ha hlen => ?_⟩
  · simp [get_audio, h]
  · simp [get_audio, ha, hlen]
  · have hc : ¬ (a.data.isEmpty = true ∨ a.data.length < 100) := by
      rintro (he | hl)
      · rw [List.isEmpty_iff] at he
        rw [he] at hlen
        simp at hlen
      · omega
    simp only [get_audio, ha, if_neg hc]

/-- A server holding a complete 100-byte artifact for `"big"` and a
truncated 3-byte artifact for `"small"`. -/
def st3 : ServerState :=
  { store := [("big", { data := List.replicate 100 7, created_at := 1 }),
              ("small", { data := [1, 2, 3], created_at := 2 })],
    jm := { jobs := [], max_concurrent := 2, nextId := 0 },
    now := 9, hashFn := fun _ => 0 }

theorem C3_fetch_audio_witness :
    get_audio st3 "missing" = AudioResult.notFound ∧
    get_audio st3 "small" = AudioResult.incomplete ∧
    get_audio st3 "big" =
      AudioResult.ok (List.replicate 100 7) "public, max-age=86400" (etag st3 "big") :=
  ⟨(C3_fetch_audio st3 "missing").1 (by decide),
   (C3_fetch_audio st3 "small").2.1 { data := [1, 2, 3], created_at := 2 } (by decide) (by decide),
   (C3_fetch_audio st3 "big").2.2 { data := List.replicate 100 7, created_at := 1 } (by decide) (by decide)⟩

/-- C6: the artifact delete fails with not-found when no artifact file
exists (state untouched, nothing scheduled); on success it removes the
artifact file, leaves the in-memory table untouched in the handler, and
schedules a Job Manager cleanup as a deferred background task exactly
when an in-memory record for that job_id exists. -/
theorem C6_delete_audio (st : ServerState) (jid : String) :
    (artifact_exists st.store jid = false →
      delete_audio st jid = (DeleteResult.notFound, st, [])) ∧
    (artifact_exists st.store jid = true →
      (delete_audio st jid).1 =
        DeleteResult.ok ("Audio for job " ++ jid ++ " deleted successfully") ∧
      artifact_exists (delete_audio st jid).2.1.store jid = false ∧
      (delete_audio st jid).2.1.jm = st.jm ∧
      ((List.lookup jid st.jm.jobs).isSome = true →
        (delete_audio st jid).2.2 = [BgTask.cleanup_job jid]) ∧
      ((List.lookup jid st.jm.jobs).isSome = false →
        (delete_audio st jid).2.2 = [])) := by
  constructor
  · intro h
    simp [delete_audio, h]
  · intro h
    refine ⟨?_, ?_, ?_, ?_, ?_⟩
    · simp [delete_audio, h]
    · rw [show (delete_audio st jid).2.1.store =
            st.store.filter (fun e => !(e.1 == jid)) from by simp [delete_audio, h]]
      unfold artifact_exists
      rw [lookup_filter_self]
      rfl
    · simp [delete_audio, h]
    · intro hm
      simp [delete_audio, h, hm]
    · intro hm
      simp [delete_audio, h, hm]

/-- A server with an artifact for `"j1"` whose in-memory record still
exists, and an artifact for `"j2"` with no in-memory record. -/
def st6 : ServerState :=
  { store := [("j1", { data := List.replicate 120 4, created_at := 5 }),
              ("j2", { data := List.replicate 120 4, created_at := 6 })],
    jm := { jobs := [("j1", { request := { text := "hi", voice := "v", pitch := 0, speed := 0, volume := 0 },
                              status := JobStatus.completed, created_at := 3 })],
            max_concurrent := 2, nextId := 1 },
    now := 9, hashFn := fun _ => 0 }

theorem C6_delete_audio_witness :
    delete_audio st6 "nope" = (DeleteResult.notFound, st6, []) ∧
    artifact_exists (delete_audio st6 "j1").2.1.store "j1" = false ∧
    (delete_audio st6 "j1").2.2 = [BgTask.cleanup_job "j1"] :=
  ⟨(C6_delete_audio st6 "nope").1 (by decide),
   ((C6_delete_audio st6 "j1").2 (by decide)).2.1,
   ((C6_delete_audio st6 "j1").2 (by decide)).2.2.2.1 (by decide)⟩

/-- C7: every entry of the active-job portion of the listing is a job_id
without a persisted artifact, so no job_id appears both as a completed
entry (derived from the store scan) and as an active entry. -/
theorem C7_no_duplicate_listing (st : ServerState) (jid : String) :
    (jid ∈ (active_jobs st).map (fun j => j.job_id) →
      artifact_exists st.store jid = false) ∧
    ¬ (jid ∈ (load_jobs st.store).map (fun j => j.job_id) ∧
       jid ∈ (active_jobs st).map (fun j => j.job_id)) := by
  have hact : jid ∈ (active_jobs st).map (fun j => j.job_id) →
      artifact_exists st.store jid = false := by
    intro h
    rcases List.mem_map.mp h with ⟨j, hj, hjid⟩
    rcases List.mem_filterMap.mp hj with ⟨e, _, he⟩
    by_cases hex : artifact_exists st.store e.1
    · rw [if_pos hex] at he
      exact absurd he (by simp)
    · rw [if_neg hex] at he
      have : j.job_id = e.1 := by
        cases he
        rfl
      rw [← hjid, this]
      exact Bool.eq_false_iff.mpr hex
  have hcomp : jid ∈ (load_jobs st.store).map (fun j => j.job_id) →
      artifact_exists st.store jid = true := by
    intro h
    rcases List.mem_map.mp h with ⟨j, hj, hjid⟩
    rcases List.mem_map.mp hj with ⟨e, he, hje⟩
    have : j.job_id = e.1 := by
      cases hje
      rfl
    refine lookup_isSome_of_mem_fst jid st.store ?_
    rw [← hjid, this]
    exact List.mem_map.mpr ⟨e, he, rfl⟩
  refine ⟨hact, ?_⟩
  rintro ⟨h1, h2⟩
  rw [hact h2] at hcomp
  exact Bool.false_ne_true (hcomp h1)

/-- A server where job `"a"` both has an artifact and is still in the
in-memory table, and job `"b"` is in-memory only. -/
def st7 : ServerState :=
  { store := [("a", { data := List.replicate 150 9, created_at := 4 })],
    jm := { jobs := [("a", { request := { text := "x", voice := "v", pitch := 0, speed := 0, volume := 0 },
                             status := JobStatus.processing, created_at := 2 }),
                     ("b", { request := { text := "y", voice := "v", pitch := 0, speed := 0, volume := 0 },
                             status := JobStatus.queued, created_at := 3 })],
            max_concurrent := 2, nextId := 2 },
    now := 9, hashFn := fun _ => 0 }

theorem C7_no_duplicate_listing_witness :
    artifact_exists st7.store "a" = true ∧
    (List.lookup "a" st7.jm.jobs).isSome = true ∧
    ¬ ("a" ∈ (load_jobs st7.store).map (fun j => j.job_id) ∧
       "a" ∈ (active_jobs st7).map (fun j => j.job_id)) :=
  ⟨by decide, by decide, (C7_no_duplicate_listing st7 "a").2⟩

/-- C8: the cache validator tag is a stable function of job_id: within
one process (whose string-hash function is fixed at startup), any two
successful fetches of the same job_id — even against different server
states holding different artifact bytes — carry the same ETag. -/
theorem C8_etag_stable (st st' : ServerState) (jid : String)
    (hh : st.hashFn = st'.hashFn) (d : List Nat) (c e : String)
    (d' : List Nat) (c' e' : String)
    (h1 : get_audio st jid = AudioResult.ok d c e)
    (h2 : get_audio st' jid = AudioResult.ok d' c' e') : e = e' := by
  have g : ∀ (s : ServerState) (dd : List Nat) (cc ee : String),
      get_audio s jid = AudioResult.ok dd cc ee → ee = etag s jid := by
    intro s dd cc ee hok
    cases hl : List.lookup jid s.store with
    | none =>
      rw [show get_audio s jid = AudioResult.notFound from by
        simp only [get_audio, hl]] at hok
      exact absurd hok (by simp)
    | some a =>
      simp only [get_audio, hl] at hok
      by_cases hsmall : a.data.isEmpty = true ∨ a.data.length < 100
      · rw [if_pos hsmall] at hok
        exact absurd hok (by simp)
      · rw [if_neg hsmall] at hok
        cases hok
        rfl
  rw [g st d c e h1, g st' d' c' e' h2, etag, etag, hh]

/-- A server holding a 100-byte artifact for `"j"`. -/
def st8a : ServerState :=
  { store := [("j", { data := List.replicate 100 0, created_at := 1 })],
    jm := { jobs := [], max_concurrent := 2, nextId := 0 },
    now := 9, hashFn := fun _ => 0 }

/-- The same server after the artifact for `"j"` was rewritten with
different bytes; the process (hence its hash function) is unchanged. -/
def st8b : ServerState :=
  { st8a with store := [("j", { data := List.replicate 150 1, created_at := 2 })] }

set_option maxRecDepth 4000 in
theorem C8_etag_stable_witness :
    get_audio st8a "j" =
      AudioResult.ok (List.replicate 100 0) "public, max-age=86400" "\"0\"" ∧
    get_audio st8b "j" =
      AudioResult.ok (List.replicate 150 1) "public, max-age=86400" "\"0\"" ∧
    ("\"0\"" : String) = "\"0\"" :=
  ⟨by decide, by decide,
   C8_etag_stable st8a st8b "j" rfl
     (List.replicate 100 0) "public, max-age=86400" "\"0\""
     (List.replicate 150 1) "public, max-age=86400" "\"0\""
     (by decide) (by decide)⟩

/-- C9: for a job_id whose artifact exists but holds fewer than 100
bytes, the status endpoint reports completed (it tests only existence)
while the audio fetch reports incomplete (HTTP 422) — the two endpoints
disagree about a sub-threshold artifact. -/
theorem C9_status_audio_disagree (st : ServerState) (jid : String) (a : Artifact)
    (h1 : List.lookup jid st.store = some a) (h2 : a.data.length < 100) :
    get_job_status st jid = StatusResult.ok jid "completed" "Audio is ready" ∧
    get_audio st jid = AudioResult.incomplete := by
  have hex : artifact_exists st.store jid = true := by
    simp [artifact_exists, h1]
  exact ⟨by simp [get_job_status, hex], by simp [get_audio, h1, h2]⟩

/-- A server holding a truncated 3-byte artifact for `"j"` while the
in-memory record still says PROCESSING. -/
def st9 : ServerState :=
  { store := [("j", { data := [0, 1, 2], created_at := 5 })],
    jm := { jobs := [("j", { request := { text := "hi", voice := "v", pitch := 0, speed := 0, volume := 0 },
                             status := JobStatus.processing, created_at := 3 })],
            max_concurrent := 2, nextId := 1 },
    now := 9, hashFn := fun _ => 0 }

theorem C9_status_audio_disagree_witness :
    get_job_status st9 "j" = StatusResult.ok "j" "completed" "Audio is ready" ∧
    get_audio st9 "j" = AudioResult.incomplete :=
  C9_status_audio_disagree st9 "j" { data := [0, 1, 2], created_at := 5 }
    (by decide) (by decide)

/-- C10: a submission whose text is non-empty but blank after stripping
is rejected with a validation error and the state is unchanged; and every
admitted submission stores the stripped text, as a QUEUED record, in the
job table. -/
theorem C10_blank_rejected_text_stripped (st : ServerState) (t voice : String)
    (pitch speed volume : Int) :
    (t ≠ "" → strip t = "" →
      tts_endpoint st (some t) voice pitch speed volume =
        (SubmitResult.validationError, st)) ∧
    (∀ jid, (tts_endpoint st (some t) voice pitch speed volume).1 =
        SubmitResult.accepted jid →
      ∃ info, (jid, info) ∈ (tts_endpoint st (some t) voice pitch speed volume).2.jm.jobs ∧
        info.request.text = strip t ∧ info.status = JobStatus.queued) := by
  constructor
  · intro _ hblank
    simp [tts_endpoint, hblank]
  · intro jid hacc
    by_cases hval : t = "" ∨ strip t = ""
    · rw [show tts_endpoint st (some t) voice pitch speed volume =
          (SubmitResult.validationError, st) from by simp only [tts_endpoint, if_pos hval]] at hacc
      exact absurd hacc (by simp)
    · by_cases hq : get_queue_size st.jm > st.jm.max_concurrent * 2
      · rw [show tts_endpoint st (some t) voice pitch speed volume =
            (SubmitResult.capacityExceeded (get_queue_size st.jm), st) from by
              simp only [tts_endpoint, if_neg hval, if_pos hq]] at hacc
        exact absurd hacc (by simp)
      · have heq : tts_endpoint st (some t) voice pitch speed volume =
            (SubmitResult.accepted (fresh_job_id st.jm),
             { st with jm := (add_job st.jm st.now
                 { text := strip t, voice := voice, pitch := pitch,
                   speed := speed, volume := volume }).2 }) := by
          simp only [tts_endpoint, if_neg hval, if_neg hq]
          rfl
        rw [heq] at hacc
        have hjid : jid = fresh_job_id st.jm := by
          cases hacc
          rfl
        refine ⟨{ request := { text := strip t, voice := voice, pitch := pitch,
                               speed := speed, volume := volume },
                  status := JobStatus.queued, created_at := st.now }, ?_, rfl, rfl⟩
        rw [heq, hjid]
        simp [add_job, fresh_job_id]

theorem C10_blank_rejected_text_stripped_witness :
    tts_endpoint stW (some "   ") "v" 0 0 0 = (SubmitResult.validationError, stW) ∧
    (∃ info, ("job-0", info) ∈ (tts_endpoint stW (some "  hi  ") "v" 0 0 0).2.jm.jobs ∧
      info.request.text = strip "  hi  " ∧ info.status = JobStatus.queued) :=
  ⟨(C10_blank_rejected_text_stripped stW "   " "v" 0 0 0).1 (by decide) (by decide),
   (C10_blank_rejected_text_stripped stW "  hi  " "v" 0 0 0).2 "job-0" (by decide)⟩

end TTS
